import Mathlib

/- Shallow embedding of the UMKM Food Commerce backend (src/main.py and
   src/schemas.py).  MongoDB documents are modelled as Lean structures, an
   ObjectId value is modelled by its 24-character lowercase hex string form,
   Python floats carrying money are modelled as exact rationals, and the
   database is explicit state threaded through each handler.  A raised Python
   exception that FastAPI turns into an HTTP response is modelled by the
   Response type below: HTTPException becomes Response.httpError, and any
   other uncaught exception (bson InvalidId, pydantic validation errors,
   pymongo storage errors) becomes Response.crash, which FastAPI surfaces as
   a 500 Internal Server Error. -/

/-- Stored product fields, mirroring the dictionaries of
    seed_products_if_empty and the Product schema of src/schemas.py.  Every
    field other than tags and in_stock is optional because a raw MongoDB
    document may lack it; src/main.py reads them defensively with .get. -/
structure ProductData where
  name : Option String
  description : Option String
  price : Option ℚ
  category : Option String
  image : Option String
  vendor : Option String
  rating : Option ℚ
  tags : List String
  in_stock : Bool
deriving DecidableEq

/-- A product document as stored: its payload plus the store-assigned _id,
    modelled as the 24-character lowercase hex string of the ObjectId. -/
structure ProductDoc extends ProductData where
  pid : String
deriving DecidableEq

/-- OrderItem of src/schemas.py: the frozen snapshot of one purchased line. -/
structure OrderItem where
  product_id : String
  name : String
  price : ℚ
  quantity : Int
deriving DecidableEq

/-- Order of src/schemas.py: the persisted order aggregate. -/
structure OrderDoc where
  customer_name : Option String
  customer_phone : Option String
  customer_address : Option String
  items : List OrderItem
  subtotal : ℚ
  notes : Option String
deriving DecidableEq

/-- The MongoDB database state: the product collection, the order collection,
    a counter from which fresh ObjectIds are minted, and a flag that makes
    every driver call raise (modelling an unreachable or failing store). -/
structure Store where
  products : List ProductDoc
  orders : List OrderDoc
  nextId : Nat
  failing : Bool
deriving DecidableEq

/-- CreateOrderItem of src/main.py before pydantic validation: quantity is an
    arbitrary integer; the ge=1 bound is enforced at the request boundary. -/
structure CreateOrderItem where
  product_id : String
  quantity : Int
deriving DecidableEq

/-- CreateOrderRequest of src/main.py. -/
structure CreateOrderRequest where
  customer_name : Option String := none
  customer_phone : Option String := none
  customer_address : Option String := none
  items : List CreateOrderItem
  notes : Option String := none
deriving DecidableEq

/-- Outcome of a request handler: a normal return value, an HTTPException
    with status code and detail, or an uncaught exception (a crash that
    FastAPI reports as a 500 Internal Server Error). -/
inductive Response (α : Type) where
  | ok : α → Response α
  | httpError : Nat → String → Response α
  | crash : String → Response α
deriving DecidableEq

/-- Hex digit test used by the bson ObjectId constructor. -/
def isHexDig (c : Char) : Bool :=
  c.isDigit || ('a' ≤ c && c ≤ 'f') || ('A' ≤ c && c ≤ 'F')

/-- Validity of a string as a bson ObjectId: exactly 24 hex characters.
    The ObjectId constructor of the bson package raises InvalidId on any
    other string. -/
def validObjectIdStr (s : String) : Bool :=
  s.length = 24 && s.data.all isHexDig

/-- Canonical form of an ObjectId hex string: bson accepts either case and
    normalises to lowercase, so document lookup compares lowercased keys. -/
def oidKey (s : String) : String := String.mk (s.data.map Char.toLower)

/-- A fresh store-assigned ObjectId, rendered as its 24-character lowercase
    hex string (zero-padded). -/
def genId (n : Nat) : String :=
  let ds := Nat.toDigits 16 n
  String.mk (List.replicate (24 - ds.length) '0' ++ ds)

/-- The hard-coded sample catalog of seed_products_if_empty in src/main.py. -/
def sampleProducts : List ProductData := [
  { name := some "Strawberry Bubble Tea",
    description := some "Refreshing strawberry milk tea with chewy tapioca pearls.",
    price := some 18000,
    category := some "Drinks",
    image := some "https://images.unsplash.com/photo-1613478223719-2ab802602423?q=80&w=1200&auto=format&fit=crop",
    vendor := some "Boba Bliss UMKM",
    rating := some 4.7,
    tags := ["boba", "strawberry", "sweet"],
    in_stock := true },
  { name := some "Classic Milk Tea",
    description := some "Smooth black tea with creamy milk and brown sugar pearls.",
    price := some 16000,
    category := some "Drinks",
    image := some "https://images.unsplash.com/photo-1592861956120-e524fc739696?q=80&w=1200&auto=format&fit=crop",
    vendor := some "Kopi & Teh Lokal",
    rating := some 4.6,
    tags := ["boba", "milk tea"],
    in_stock := true },
  { name := some "Spicy Chicken Skewers",
    description := some "Grilled chicken satay with homemade spicy sauce.",
    price := some 22000,
    category := some "Snacks",
    image := some "https://images.unsplash.com/photo-1666001085700-0610a7f0b11d?q=80&w=1200&auto=format&fit=crop",
    vendor := some "Satay UMKM",
    rating := some 4.4,
    tags := ["spicy", "protein"],
    in_stock := true },
  { name := some "Chocolate Banana Crepes",
    description := some "Soft crepes filled with banana and chocolate drizzle.",
    price := some 15000,
    category := some "Dessert",
    image := some "https://images.unsplash.com/photo-1541599188778-cdc73298e8f8?q=80&w=1200&auto=format&fit=crop",
    vendor := some "Manis Lokal",
    rating := some 4.8,
    tags := ["dessert", "sweet"],
    in_stock := true }
]

/-- Driver call db.product.count_documents: raises on a failing store. -/
def countDocuments (st : Store) : Except String Nat :=
  if st.failing then .error "storage failure" else .ok st.products.length

/-- MongoDB assigns a fresh ObjectId to each document of an insert_many. -/
def assignIds (n : Nat) : List ProductData → List ProductDoc
  | [] => []
  | d :: ds => { toProductData := d, pid := genId n } :: assignIds (n + 1) ds

/-- Driver call db.product.insert_many: raises on a failing store. -/
def insertMany (st : Store) (docs : List ProductData) : Except String Store :=
  if st.failing then .error "storage failure"
  else .ok { st with products := st.products ++ assignIds st.nextId docs,
                     nextId := st.nextId + docs.length }

/-- Core of seed_products_if_empty in src/main.py for a configured database
    (the db-is-None early return is handled by seed_products_if_empty below):
    count the product documents, return unchanged when at least one exists,
    otherwise insert the sample catalog.  Driver exceptions propagate. -/
def seedStore (st : Store) : Except String Store :=
  match countDocuments st with
  | .error e => .error e
  | .ok count =>
    if count > 0 then .ok st
    else
      match insertMany st sampleProducts with
      | .error e => .error e
      | .ok st2 => .ok st2

/-- seed_products_if_empty of src/main.py: returns immediately when db is
    None, otherwise runs the seeding core. -/
def seed_products_if_empty (dbOpt : Option Store) : Except String (Option Store) :=
  match dbOpt with
  | none => .ok none
  | some st =>
    match seedStore st with
    | .error e => .error e
    | .ok st2 => .ok (some st2)

/-- Case-insensitive match of one pattern character against one text
    character, for the fragment of regular expressions exercised here: a dot
    matches any character, every other character matches itself up to case
    (the $options "i" flag of the query in list_products). -/
def charMatchesCI (p c : Char) : Bool := p = '.' || p.toLower = c.toLower

/-- The pattern matches at the start of the text. -/
def regexAt : List Char → List Char → Bool
  | [], _ => true
  | _ :: _, [] => false
  | p :: ps, c :: cs => charMatchesCI p c && regexAt ps cs

/-- Unanchored regular-expression search, as MongoDB $regex applies a
    pattern to a stored string: the pattern may match at any position. -/
def regexSearch : List Char → List Char → Bool
  | pat, [] => regexAt pat []
  | pat, c :: cs => regexAt pat (c :: cs) || regexSearch pat cs

/-- A $regex clause against an optional field: a document lacking the field
    does not match the clause. -/
def fieldRegex (q : String) : Option String → Bool
  | some s => regexSearch q.data s.data
  | none => false

/-- The find filter built by list_products in src/main.py: an exact category
    match when a non-empty category is supplied (Python truthiness skips
    empty strings), and an $or of case-insensitive $regex clauses over name,
    description and tags when a non-empty query is supplied.  A $regex on the
    array field tags matches when some element matches. -/
def productMatches (category q : Option String) (p : ProductDoc) : Bool :=
  (match category with
   | none => true
   | some c => if c = "" then true else p.category = some c)
  &&
  (match q with
   | none => true
   | some s =>
     if s = "" then true
     else fieldRegex s p.name || fieldRegex s p.description ||
          p.tags.any (fun t => regexSearch s.data t.data))

/-- Driver call db.product.find(filter): raises on a failing store. -/
def findDocs (st : Store) (category q : Option String) :
    Except String (List ProductDoc) :=
  if st.failing then .error "storage failure"
  else .ok (st.products.filter (productMatches category q))

/-- The static fallback item returned by list_products when db is None.  The
    raw dictionary has no _id, modelled by an empty pid. -/
def fallbackItems : List ProductDoc := [
  { pid := "",
    name := some "Sample Bubble Tea",
    description := some "Example product",
    price := some 15000,
    category := some "Drinks",
    image := none,
    vendor := some "UMKM Sample",
    rating := some 4.5,
    tags := ["sample"],
    in_stock := true }
]

/-- list_products of src/main.py: fallback list when db is None; otherwise
    seed first (driver exceptions propagate uncaught), then find with the
    category and query filter.  Returns the response paired with the
    database state afterwards. -/
def list_products (category q : Option String) (dbOpt : Option Store) :
    Except String (List ProductDoc) × Option Store :=
  match dbOpt with
  | none => (.ok fallbackItems, none)
  | some st =>
    match seedStore st with
    | .error e => (.error e, some st)
    | .ok st2 =>
      match findDocs st2 category q with
      | .error e => (.error e, some st2)
      | .ok items => (.ok items, some st2)

/-- Round-half-to-even to the nearest integer, the rounding of the Python
    built-in round applied to the exact rational modelling the float. -/
def roundHalfEven (x : ℚ) : ℤ :=
  if x - ⌊x⌋ < 1/2 then ⌊x⌋
  else if 1/2 < x - ⌊x⌋ then ⌊x⌋ + 1
  else if ⌊x⌋ % 2 = 0 then ⌊x⌋ else ⌊x⌋ + 1

/-- round(x, 2) of src/main.py line 198. -/
def round2 (x : ℚ) : ℚ := (roundHalfEven (x * 100) : ℚ) / 100

/-- Modelled from the spec: the repository function create_document is
    imported by src/main.py from a database module that is not among the
    sources.  Per the spec (Order Repository, section 4.4) it performs a
    single atomic insert of the full order document and returns a
    store-assigned unique identifier, and it fails with a storage error,
    raised to the caller, when the underlying write fails. -/
def create_document (st : Store) (doc : OrderDoc) : Except String (String × Store) :=
  if st.failing then .error "storage failure"
  else .ok (genId st.nextId,
            { st with orders := st.orders ++ [doc], nextId := st.nextId + 1 })

/-- Driver call find_one on the product collection with an _id filter: the
    first stored document whose _id equals the ObjectId parsed from the
    given hex string. -/
def lookupProduct (st : Store) (pid : String) : Option ProductDoc :=
  st.products.find? (fun p => p.pid = oidKey pid)

/-- One product resolution in the loop of create_order, src/main.py line 184:
    prod is None when db is None; otherwise the conditional expression skips
    the lookup entirely for a falsy (empty) product_id, the bson ObjectId
    constructor raises InvalidId on a malformed non-empty string, and
    find_one raises on a failing store or returns the first document whose
    _id equals the parsed ObjectId.  The Bool records whether find_one was
    invoked. -/
def resolveLine (dbOpt : Option Store) (pid : String) :
    Response (Option ProductDoc) × Bool :=
  match dbOpt with
  | none => (.ok none, false)
  | some st =>
    if pid = "" then (.ok none, false)
    else if validObjectIdStr pid then
      if st.failing then (.crash "storage failure", true)
      else (.ok (lookupProduct st pid), true)
    else (.crash ("InvalidId: " ++ pid), false)

/-- The for loop of create_order, src/main.py lines 180 to 191: resolve each
    line, raise 404 when the product is missing, snapshot name and price
    (price defaults to 0 when the document lacks it), accumulate the
    subtotal, and construct the pydantic OrderItem, whose validation raises
    when name is not a string, price is negative, or quantity is below 1.
    The final Nat counts the find_one calls performed. -/
def buildLoop (dbOpt : Option Store) :
    List CreateOrderItem → List OrderItem → ℚ → Nat →
    Response (List OrderItem × ℚ) × Nat
  | [], acc, subtotal, lk => (.ok (acc, subtotal), lk)
  | line :: rest, acc, subtotal, lk =>
    match resolveLine dbOpt line.product_id with
    | (.crash m, did) => (.crash m, lk + if did then 1 else 0)
    | (.httpError code d, did) => (.httpError code d, lk + if did then 1 else 0)
    | (.ok none, did) =>
      (.httpError 404 ("Product not found: " ++ line.product_id),
       lk + if did then 1 else 0)
    | (.ok (some prod), did) =>
      let lk2 := lk + if did then 1 else 0
      let price : ℚ := prod.price.getD 0
      match prod.name with
      | none => (.crash "OrderItem validation failed: name", lk2)
      | some nm =>
        if price < 0 then (.crash "OrderItem validation failed: price", lk2)
        else if line.quantity < 1 then
          (.crash "OrderItem validation failed: quantity", lk2)
        else
          buildLoop dbOpt rest
            (acc ++ [{ product_id := prod.pid, name := nm, price := price,
                       quantity := line.quantity }])
            (subtotal + price * (line.quantity : ℚ)) lk2

/-- Observable outcome of a create-order request: the handler response, the
    database state afterwards, and how many find_one lookups and
    create_document writes were performed. -/
structure COut where
  resp : Response String
  db : Option Store
  lookups : Nat
  writes : Nat
deriving DecidableEq

/-- create_order of src/main.py lines 171 to 207: reject an empty item list
    with 400 before touching the store, run the resolution loop, construct
    the pydantic Order (whose validation raises on a negative subtotal), and
    persist it through create_document, wrapping a repository failure into a
    500 response.  The ok response carries the returned order_id. -/
def createOrder (dbOpt : Option Store) (payload : CreateOrderRequest) : COut :=
  if payload.items = [] then
    { resp := .httpError 400 "No items provided", db := dbOpt,
      lookups := 0, writes := 0 }
  else
    match buildLoop dbOpt payload.items [] 0 0 with
    | (.crash m, lk) =>
      { resp := .crash m, db := dbOpt, lookups := lk, writes := 0 }
    | (.httpError code d, lk) =>
      { resp := .httpError code d, db := dbOpt, lookups := lk, writes := 0 }
    | (.ok (orderItems, subtotal), lk) =>
      let sub2 := round2 subtotal
      if sub2 < 0 then
        { resp := .crash "Order validation failed: subtotal", db := dbOpt,
          lookups := lk, writes := 0 }
      else
        match dbOpt with
        | none =>
          { resp := .httpError 500 "Failed to create order: database not available",
            db := none, lookups := lk, writes := 1 }
        | some st =>
          match create_document st
            { customer_name := payload.customer_name,
              customer_phone := payload.customer_phone,
              customer_address := payload.customer_address,
              items := orderItems, subtotal := sub2,
              notes := payload.notes } with
          | .error e =>
            { resp := .httpError 500 ("Failed to create order: " ++ e),
              db := some st, lookups := lk, writes := 1 }
          | .ok (oid, st2) =>
            { resp := .ok oid, db := some st2, lookups := lk, writes := 1 }

/-- The ge=1 bound of CreateOrderItem.quantity in src/main.py line 69,
    enforced by pydantic at the request boundary. -/
def validQuantity (it : CreateOrderItem) : Bool := 1 ≤ it.quantity

/-- The POST /api/orders boundary: FastAPI rejects the request with a 422
    validation error before the handler body runs when any item violates the
    ge=1 bound on quantity. -/
def postOrders (dbOpt : Option Store) (payload : CreateOrderRequest) : COut :=
  if payload.items.all validQuantity then createOrder dbOpt payload
  else
    { resp := .httpError 422 "request validation failed: quantity must be at least 1",
      db := dbOpt, lookups := 0, writes := 0 }

/-- A request line resolves cleanly: its product reference is a well-formed
    ObjectId string, its quantity is at least 1, and the lookup finds a
    document carrying a name and a non-negative effective price, so that the
    snapshot construction validates. -/
def Resolves (st : Store) (line : CreateOrderItem) : Prop :=
  validObjectIdStr line.product_id = true ∧
  1 ≤ line.quantity ∧
  ∃ p, lookupProduct st line.product_id = some p ∧
       p.name.isSome ∧ 0 ≤ p.price.getD 0

/-- The OrderItem snapshot create_order builds for one request line. -/
def snapItem (st : Store) (line : CreateOrderItem) : OrderItem :=
  match lookupProduct st line.product_id with
  | some p => { product_id := p.pid, name := p.name.getD "",
                price := p.price.getD 0, quantity := line.quantity }
  | none => { product_id := "", name := "", price := 0, quantity := line.quantity }

/-- The contribution of one request line to the subtotal: the effective
    price of the resolved product times the requested quantity. -/
def lineAmount (st : Store) (line : CreateOrderItem) : ℚ :=
  (match lookupProduct st line.product_id with
   | some p => p.price.getD 0
   | none => 0) * (line.quantity : ℚ)

/-- The order document create_order persists for a fully resolving request. -/
def orderDocOf (st : Store) (req : CreateOrderRequest) : OrderDoc :=
  { customer_name := req.customer_name,
    customer_phone := req.customer_phone,
    customer_address := req.customer_address,
    items := req.items.map (snapItem st),
    subtotal := round2 ((req.items.map (lineAmount st)).sum),
    notes := req.notes }

/-- Fixture: a well-formed ObjectId hex string under which a product is
    stored in the fixture store. -/
def pidA : String := "aaaaaaaaaaaaaaaaaaaaaaaa"

/-- Fixture: a well-formed ObjectId hex string matching no stored product. -/
def pidF : String := "ffffffffffffffffffffffff"

/-- Fixture: a stored product with a name and a price. -/
def prodW : ProductDoc :=
  { pid := pidA, name := some "Strawberry Bubble Tea", description := none,
    price := some 18000, category := some "Drinks", image := none,
    vendor := none, rating := none, tags := [], in_stock := true }

/-- Fixture: a healthy store holding exactly one product. -/
def stW : Store :=
  { products := [prodW], orders := [], nextId := 0, failing := false }

/-- Fixture: a healthy store holding no products and no orders. -/
def stEmptyOk : Store :=
  { products := [], orders := [], nextId := 0, failing := false }

/-- Spec-side predicate (written from the specification text, for comparison
    with the implementation filter): the pattern is a case-insensitive
    prefix of the text, literally, with no regular-expression reading. -/
def substrAtCI : List Char → List Char → Bool
  | [], _ => true
  | _ :: _, [] => false
  | p :: ps, c :: cs => (p.toLower = c.toLower) && substrAtCI ps cs

/-- Spec-side predicate: the pattern occurs as a case-insensitive substring
    of the text. -/
def substrCI : List Char → List Char → Bool
  | pat, [] => substrAtCI pat []
  | pat, c :: cs => substrAtCI pat (c :: cs) || substrCI pat cs

/-- Spec-side predicate for the search claim: the query occurs as a
    case-insensitive substring of the name, of the description, or of at
    least one tag. -/
def specSearchMatches (q : String) (p : ProductDoc) : Bool :=
  (match p.name with
   | some s => substrCI q.data s.data
   | none => false) ||
  (match p.description with
   | some s => substrCI q.data s.data
   | none => false) ||
  p.tags.any (fun t => substrCI q.data t.data)

/-- Characters that carry special meaning in the regular-expression dialect
    MongoDB applies to the query string (PCRE metacharacters; the braces are
    spelled numerically). -/
def regexMeta (c : Char) : Bool :=
  c = '.' || c = '^' || c = '$' || c = '*' || c = '+' || c = '?' ||
  c = '(' || c = ')' || c = '[' || c = ']' || c = '|' || c = '\\' ||
  c = Char.ofNat 123 || c = Char.ofNat 125

/-- The store state after insert_many of the sample catalog. -/
def seededStore (st : Store) : Store :=
  { st with products := st.products ++ assignIds st.nextId sampleProducts,
            nextId := st.nextId + sampleProducts.length }

/-- Fixture: a product none of whose fields contains a literal dot. -/
def teaProduct : ProductDoc :=
  { pid := pidA, name := some "Tea", description := none, price := some 1,
    category := some "Drinks", image := none, vendor := none, rating := none,
    tags := [], in_stock := true }

/-- Fixture: a healthy store holding only the dot-free product. -/
def stTea : Store :=
  { products := [teaProduct], orders := [], nextId := 0, failing := false }

/-- Fixture: a store whose driver calls all raise. -/
def stFailing : Store :=
  { products := [], orders := [], nextId := 0, failing := true }

/-- Fixture: a one-line request with quantity 0. -/
def reqQ0 : CreateOrderRequest :=
  { items := [{ product_id := pidA, quantity := 0 }] }

/-- Fixture: a one-line request with quantity 1. -/
def reqQ1 : CreateOrderRequest :=
  { items := [{ product_id := pidA, quantity := 1 }] }

/-- Fixture: a stored product document that lacks a price field. -/
def prodNoPrice : ProductDoc :=
  { pid := pidA, name := some "Mystery Snack", description := none,
    price := none, category := some "Snacks", image := none, vendor := none,
    rating := none, tags := [], in_stock := true }

/-- Fixture: a healthy store holding only the priceless product. -/
def stNoPrice : Store :=
  { products := [prodNoPrice], orders := [], nextId := 0, failing := false }

/-- A well-formed ObjectId string has 24 characters, so it is not empty. -/
lemma validObjectIdStr_ne_empty {s : String} (h : validObjectIdStr s = true) :
    s ≠ "" := by
  intro he
  subst he
  have hfalse : validObjectIdStr "" = false := by decide
  rw [hfalse] at h
  exact Bool.false_ne_true h

/-- Rounding half to even never turns a non-negative number negative. -/
lemma roundHalfEven_nonneg {x : ℚ} (hx : 0 ≤ x) : 0 ≤ roundHalfEven x := by
  unfold roundHalfEven
  have h0 : (0 : ℤ) ≤ ⌊x⌋ := Int.floor_nonneg.mpr hx
  split_ifs <;> omega

/-- round2 never turns a non-negative subtotal negative. -/
lemma round2_nonneg {x : ℚ} (hx : 0 ≤ x) : 0 ≤ round2 x := by
  unfold round2
  have h1 : 0 ≤ roundHalfEven (x * 100) :=
    roundHalfEven_nonneg (by positivity)
  positivity

/-- round2 fixes zero. -/
lemma round2_zero : round2 0 = 0 := by
  have h1 : roundHalfEven (0 * 100) = 0 := by
    unfold roundHalfEven
    norm_num
  unfold round2
  rw [h1]
  norm_num

/-- A cleanly resolving line contributes a non-negative amount. -/
lemma lineAmount_nonneg (st : Store) (line : CreateOrderItem)
    (h : Resolves st line) : 0 ≤ lineAmount st line := by
  obtain ⟨_, hq, p, hp, _, hpr⟩ := h
  unfold lineAmount
  rw [hp]
  have hq0 : (0 : ℚ) ≤ (line.quantity : ℚ) := by
    exact_mod_cast le_trans zero_le_one hq
  exact mul_nonneg hpr hq0

/-- Processing a prefix of cleanly resolving lines appends their snapshots
    to the accumulator, adds their amounts to the running subtotal, and
    performs one lookup per line. -/
lemma buildLoop_append (st : Store) (hf : st.failing = false)
    (pre rest : List CreateOrderItem) (h : ∀ l ∈ pre, Resolves st l)
    (acc : List OrderItem) (sub : ℚ) (lk : Nat) :
    buildLoop (some st) (pre ++ rest) acc sub lk =
      buildLoop (some st) rest (acc ++ pre.map (snapItem st))
        (sub + (pre.map (lineAmount st)).sum) (lk + pre.length) := by
  induction pre generalizing acc sub lk with
  | nil => simp
  | cons line tl ih =>
    obtain ⟨hv, hq, p, hp, hn, hpr⟩ := h line (List.mem_cons_self _ _)
    have hne : line.product_id ≠ "" := validObjectIdStr_ne_empty hv
    obtain ⟨nm, hnm⟩ := Option.isSome_iff_exists.mp hn
    have hres : resolveLine (some st) line.product_id =
        (.ok (lookupProduct st line.product_id), true) := by
      simp [resolveLine, hne, hv, hf]
    have hsnap : snapItem st line =
        { product_id := p.pid, name := nm, price := p.price.getD 0,
          quantity := line.quantity } := by
      unfold snapItem
      rw [hp]
      simp [hnm]
    have hamt : lineAmount st line = p.price.getD 0 * (line.quantity : ℚ) := by
      unfold lineAmount
      rw [hp]
    have hstep : buildLoop (some st) ((line :: tl) ++ rest) acc sub lk =
        buildLoop (some st) (tl ++ rest) (acc ++ [snapItem st line])
          (sub + lineAmount st line) (lk + 1) := by
      show buildLoop (some st) (line :: (tl ++ rest)) acc sub lk = _
      rw [buildLoop, hres, hp]
      dsimp only
      rw [hnm]
      dsimp only
      rw [if_neg (not_lt.mpr hpr), if_neg (not_lt.mpr hq)]
      rw [hsnap, hamt]
      norm_num
    rw [hstep, ih (fun l hl => h l (List.mem_cons_of_mem _ hl))]
    have e1 : (acc ++ [snapItem st line]) ++ List.map (snapItem st) tl
        = acc ++ List.map (snapItem st) (line :: tl) := by
      simp
    have e2 : (sub + lineAmount st line) + (List.map (lineAmount st) tl).sum
        = sub + (List.map (lineAmount st) (line :: tl)).sum := by
      rw [List.map_cons, List.sum_cons, add_assoc]
    have e3 : lk + 1 + tl.length = lk + (line :: tl).length := by
      rw [List.length_cons]
      omega
    rw [e1, e2, e3]

/-- Running the loop on a list of cleanly resolving lines yields all
    snapshots, the exact subtotal, and one lookup per line. -/
lemma buildLoop_resolved (st : Store) (hf : st.failing = false)
    (lines : List CreateOrderItem) (h : ∀ l ∈ lines, Resolves st l) :
    buildLoop (some st) lines [] 0 0 =
      (.ok (lines.map (snapItem st), (lines.map (lineAmount st)).sum),
       lines.length) := by
  have hmain := buildLoop_append st hf lines [] h [] 0 0
  rw [List.append_nil] at hmain
  rw [hmain]
  simp [buildLoop]

/-- create_order on a fully resolving non-empty request against a healthy
    store: it persists exactly the snapshot order document with the rounded
    subtotal, returns the freshly minted identifier, and performs one lookup
    per line and a single write. -/
lemma createOrder_resolved (st : Store) (req : CreateOrderRequest)
    (hf : st.failing = false) (hne : req.items ≠ [])
    (h : ∀ l ∈ req.items, Resolves st l) :
    createOrder (some st) req =
      { resp := .ok (genId st.nextId),
        db := some { st with orders := st.orders ++ [orderDocOf st req],
                             nextId := st.nextId + 1 },
        lookups := req.items.length, writes := 1 } := by
  have hsum : 0 ≤ (req.items.map (lineAmount st)).sum := by
    apply List.sum_nonneg
    intro x hx
    obtain ⟨l, hl, rfl⟩ := List.mem_map.mp hx
    exact lineAmount_nonneg st l (h l hl)
  have hnotneg : ¬ round2 ((req.items.map (lineAmount st)).sum) < 0 :=
    not_lt.mpr (round2_nonneg hsum)
  rw [createOrder, if_neg hne, buildLoop_resolved st hf _ h]
  dsimp only
  rw [if_neg hnotneg]
  rw [create_document, if_neg (by rw [hf]; exact Bool.false_ne_true)]
  rfl

/-- Hitting a line with an empty product reference: the conditional
    expression short-circuits, no lookup happens, and the loop raises 404. -/
lemma buildLoop_head_empty (st : Store) (bad : CreateOrderItem)
    (rest : List CreateOrderItem) (acc : List OrderItem) (sub : ℚ) (lk : Nat)
    (hempty : bad.product_id = "") :
    buildLoop (some st) (bad :: rest) acc sub lk =
      (.httpError 404 ("Product not found: " ++ bad.product_id), lk) := by
  rw [buildLoop, resolveLine, if_pos hempty]
  norm_num

/-- Hitting a line whose well-formed reference matches no stored product:
    find_one runs once, returns nothing, and the loop raises 404. -/
lemma buildLoop_head_missing (st : Store) (hf : st.failing = false)
    (bad : CreateOrderItem) (rest : List CreateOrderItem)
    (acc : List OrderItem) (sub : ℚ) (lk : Nat)
    (hv : validObjectIdStr bad.product_id = true)
    (hmiss : lookupProduct st bad.product_id = none) :
    buildLoop (some st) (bad :: rest) acc sub lk =
      (.httpError 404 ("Product not found: " ++ bad.product_id), lk + 1) := by
  have hne : bad.product_id ≠ "" := validObjectIdStr_ne_empty hv
  rw [buildLoop, resolveLine, if_neg hne, if_pos hv,
      if_neg (by rw [hf]; exact Bool.false_ne_true), hmiss]
  norm_num

/-- Hitting a line with a malformed non-empty reference: the bson ObjectId
    constructor raises InvalidId before any lookup. -/
lemma buildLoop_head_malformed (st : Store) (bad : CreateOrderItem)
    (rest : List CreateOrderItem) (acc : List OrderItem) (sub : ℚ) (lk : Nat)
    (hne : bad.product_id ≠ "")
    (hv : validObjectIdStr bad.product_id = false) :
    buildLoop (some st) (bad :: rest) acc sub lk =
      (.crash ("InvalidId: " ++ bad.product_id), lk) := by
  rw [buildLoop, resolveLine, if_neg hne,
      if_neg (by rw [hv]; exact Bool.false_ne_true)]
  norm_num

/-- A list that splits around a distinguished element is not empty. -/
lemma split_ne_nil {α : Type} {xs pre rest : List α} {x : α}
    (h : xs = pre ++ x :: rest) : xs ≠ [] := by
  rw [h]
  simp

/-- C4: for every order request whose items list is empty, create_order
    fails with HTTP 400 before any store interaction: no product lookup is
    performed, no order is persisted, and the database is untouched. -/
theorem createOrder_empty_items (dbOpt : Option Store)
    (req : CreateOrderRequest) (h : req.items = []) :
    createOrder dbOpt req =
      { resp := .httpError 400 "No items provided", db := dbOpt,
        lookups := 0, writes := 0 } := by
  rw [createOrder, h, if_pos rfl]

/-- Witness for C4 at a concrete empty request. -/
theorem createOrder_empty_items_witness :
    createOrder (some stW) { items := [] } =
      { resp := .httpError 400 "No items provided", db := some stW,
        lookups := 0, writes := 0 } :=
  createOrder_empty_items (some stW) { items := [] } rfl

/-- C2: when the items list contains a product reference that resolves to no
    stored product (an empty reference, or a well-formed one matching no
    document) and every earlier line resolves cleanly, create_order fails
    with HTTP 404 naming that reference, the store is unchanged, and
    create_document is never invoked. -/
theorem createOrder_unresolved_aborts (st : Store) (req : CreateOrderRequest)
    (pre : List CreateOrderItem) (bad : CreateOrderItem)
    (rest : List CreateOrderItem)
    (hf : st.failing = false)
    (hsplit : req.items = pre ++ bad :: rest)
    (hpre : ∀ l ∈ pre, Resolves st l)
    (hform : bad.product_id = "" ∨ validObjectIdStr bad.product_id = true)
    (hmiss : lookupProduct st bad.product_id = none) :
    createOrder (some st) req =
      { resp := .httpError 404 ("Product not found: " ++ bad.product_id),
        db := some st,
        lookups := pre.length + (if bad.product_id = "" then 0 else 1),
        writes := 0 } := by
  rw [createOrder, hsplit, if_neg (by simp : ¬(pre ++ bad :: rest = [])),
      buildLoop_append st hf pre (bad :: rest) hpre [] 0 0]
  rcases hform with he | hv
  · rw [buildLoop_head_empty st bad rest _ _ _ he, if_pos he]
    norm_num
  · have hne : bad.product_id ≠ "" := validObjectIdStr_ne_empty hv
    rw [buildLoop_head_missing st hf bad rest _ _ _ hv hmiss, if_neg hne]
    norm_num

/-- Witness for C2: a two-line request whose first line resolves and whose
    second names an absent product; the handler answers 404 naming it, keeps
    the store unchanged, and performs no write. -/
theorem createOrder_unresolved_aborts_witness :
    createOrder (some stW)
        { items := [{ product_id := pidA, quantity := 1 },
                    { product_id := pidF, quantity := 2 }] } =
      { resp := .httpError 404 ("Product not found: " ++ pidF),
        db := some stW, lookups := 2, writes := 0 } := by
  exact createOrder_unresolved_aborts stW
    { items := [{ product_id := pidA, quantity := 1 },
                { product_id := pidF, quantity := 2 }] }
    [{ product_id := pidA, quantity := 1 }]
    { product_id := pidF, quantity := 2 } []
    rfl rfl
    (by
      intro l hl
      simp only [List.mem_singleton] at hl
      subst hl
      exact ⟨by decide, by decide, prodW, by decide, by decide, by decide⟩)
    (Or.inr (by decide)) (by decide)

/-- C10: a line whose product reference is the empty string short-circuits
    product resolution: no ObjectId parsing and no find_one call happens for
    it (given k cleanly resolving earlier lines, exactly k lookups run), and
    create_order fails with HTTP 404 naming the empty reference rather than
    crashing; nothing is persisted. -/
theorem createOrder_empty_reference (st : Store) (req : CreateOrderRequest)
    (pre : List CreateOrderItem) (bad : CreateOrderItem)
    (rest : List CreateOrderItem)
    (hf : st.failing = false)
    (hsplit : req.items = pre ++ bad :: rest)
    (hpre : ∀ l ∈ pre, Resolves st l)
    (hempty : bad.product_id = "") :
    createOrder (some st) req =
      { resp := .httpError 404 ("Product not found: " ++ bad.product_id),
        db := some st, lookups := pre.length, writes := 0 } := by
  rw [createOrder, hsplit, if_neg (by simp : ¬(pre ++ bad :: rest = [])),
      buildLoop_append st hf pre (bad :: rest) hpre [] 0 0,
      buildLoop_head_empty st bad rest _ _ _ hempty]
  norm_num

/-- Witness for C10: one resolving line followed by an empty reference. -/
theorem createOrder_empty_reference_witness :
    createOrder (some stW)
        { items := [{ product_id := pidA, quantity := 1 },
                    { product_id := "", quantity := 3 }] } =
      { resp := .httpError 404 "Product not found: ",
        db := some stW, lookups := 1, writes := 0 } := by
  exact createOrder_empty_reference stW
    { items := [{ product_id := pidA, quantity := 1 },
                { product_id := "", quantity := 3 }] }
    [{ product_id := pidA, quantity := 1 }]
    { product_id := "", quantity := 3 } []
    rfl rfl
    (by
      intro l hl
      simp only [List.mem_singleton] at hl
      subst hl
      exact ⟨by decide, by decide, prodW, by decide, by decide, by decide⟩)
    rfl

/-- C3 counterexample: a malformed (non-hex) product identifier does not
    produce the 404 NotFound rejection; the bson ObjectId constructor raises
    an uncaught InvalidId exception, i.e. the request crashes with a server
    error. -/
theorem malformed_reference_crash_counterexample :
    (createOrder (some stEmptyOk)
        { items := [{ product_id := "xyz", quantity := 1 }] }).resp =
      .crash "InvalidId: xyz" := by
  decide

/-- C3 as amended: during order creation a malformed non-empty product
    identifier is not treated as not-found: the ObjectId constructor raises
    an unhandled InvalidId exception, surfaced as a 500 crash instead of the
    404 rejection, with no lookup for that line and nothing persisted (the
    empty identifier alone short-circuits to 404). -/
theorem malformed_reference_crashes (st : Store) (req : CreateOrderRequest)
    (pre : List CreateOrderItem) (bad : CreateOrderItem)
    (rest : List CreateOrderItem)
    (hf : st.failing = false)
    (hsplit : req.items = pre ++ bad :: rest)
    (hpre : ∀ l ∈ pre, Resolves st l)
    (hne : bad.product_id ≠ "")
    (hmal : validObjectIdStr bad.product_id = false) :
    createOrder (some st) req =
      { resp := .crash ("InvalidId: " ++ bad.product_id),
        db := some st, lookups := pre.length, writes := 0 } := by
  rw [createOrder, hsplit, if_neg (by simp : ¬(pre ++ bad :: rest = [])),
      buildLoop_append st hf pre (bad :: rest) hpre [] 0 0,
      buildLoop_head_malformed st bad rest _ _ _ hne hmal]
  norm_num

/-- Witness for the amended C3 at the concrete malformed identifier. -/
theorem malformed_reference_crashes_witness :
    createOrder (some stEmptyOk)
        { items := [{ product_id := "xyz", quantity := 1 }] } =
      { resp := .crash "InvalidId: xyz", db := some stEmptyOk,
        lookups := 0, writes := 0 } := by
  exact malformed_reference_crashes stEmptyOk
    { items := [{ product_id := "xyz", quantity := 1 }] }
    [] { product_id := "xyz", quantity := 1 } []
    rfl rfl (by intro l hl; cases hl) (by decide) (by decide)

/-- The empty pattern occurs in every text. -/
lemma substrCI_nil (s : List Char) : substrCI [] s = true := by
  cases s with
  | nil => rfl
  | cons c cs => rfl

/-- On a dot-free pattern, anchored regular-expression matching is literal
    case-insensitive prefix matching. -/
lemma regexAt_eq_substrAtCI (pat : List Char) (hdot : '.' ∉ pat)
    (s : List Char) : regexAt pat s = substrAtCI pat s := by
  induction pat generalizing s with
  | nil => cases s <;> rfl
  | cons p ps ih =>
    cases s with
    | nil => rfl
    | cons c cs =>
      have hp : p ≠ '.' := fun he => hdot (he ▸ List.mem_cons_self p ps)
      have hps : '.' ∉ ps := fun hm => hdot (List.mem_cons_of_mem p hm)
      rw [regexAt, substrAtCI, charMatchesCI]
      rw [ih hps]
      have : (p = '.' : Bool) = false := by
        simp [hp]
      rw [this]
      simp

/-- On a dot-free pattern, unanchored regular-expression search is literal
    case-insensitive substring search. -/
lemma regexSearch_eq_substrCI (pat : List Char) (hdot : '.' ∉ pat)
    (s : List Char) : regexSearch pat s = substrCI pat s := by
  induction s with
  | nil => rw [regexSearch, substrCI, regexAt_eq_substrAtCI pat hdot]
  | cons c cs ih =>
    rw [regexSearch, substrCI, regexAt_eq_substrAtCI pat hdot, ih]

/-- A query containing no metacharacter contains no dot. -/
lemma no_meta_no_dot {q : String} (hq : ∀ c ∈ q.data, regexMeta c = false) :
    '.' ∉ q.data := by
  intro hm
  have := hq '.' hm
  rw [regexMeta] at this
  simp at this

/-- On metacharacter-free queries, the filter list_products builds agrees
    pointwise with the spec-side substring predicate on every product that
    carries a name. -/
lemma productMatches_eq_spec (q : String)
    (hq : ∀ c ∈ q.data, regexMeta c = false)
    (p : ProductDoc) (hn : p.name.isSome = true) :
    productMatches none (some q) p = specSearchMatches q p := by
  obtain ⟨nm, hnm⟩ := Option.isSome_iff_exists.mp hn
  have hdot : '.' ∉ q.data := no_meta_no_dot hq
  have hs1 := regexSearch_eq_substrCI q.data hdot
  by_cases hq0 : q = ""
  · subst hq0
    rw [productMatches, specSearchMatches, hnm]
    simp [substrCI_nil]
  · rw [productMatches, specSearchMatches, if_neg hq0, hnm]
    cases hd : p.description with
    | none => simp [fieldRegex, hs1]
    | some ds => simp [fieldRegex, hs1]

/-- insert_many assigns one identifier per document. -/
lemma assignIds_length (n : Nat) (ds : List ProductData) :
    (assignIds n ds).length = ds.length := by
  induction ds generalizing n with
  | nil => rfl
  | cons d tl ih =>
    rw [assignIds, List.length_cons, List.length_cons, ih]

/-- Every document inserted by insert_many keeps its payload. -/
lemma assignIds_mem (n : Nat) (ds : List ProductData) (p : ProductDoc)
    (hm : p ∈ assignIds n ds) : p.toProductData ∈ ds := by
  induction ds generalizing n with
  | nil => cases hm
  | cons d tl ih =>
    rw [assignIds] at hm
    rcases List.mem_cons.mp hm with he | hm2
    · subst he
      exact List.mem_cons_self _ _
    · exact List.mem_cons_of_mem _ (ih (n + 1) hm2)

/-- Seeding a healthy empty store inserts the sample catalog in one
    insert_many and advances the identifier counter. -/
lemma seedStore_empty (st : Store) (hf : st.failing = false)
    (hp : st.products = []) :
    seedStore st = .ok (seededStore st) := by
  rw [seedStore, countDocuments, if_neg (by rw [hf]; exact Bool.false_ne_true)]
  dsimp only
  rw [if_neg (by rw [hp]; simp)]
  rw [insertMany, if_neg (by rw [hf]; exact Bool.false_ne_true)]
  rfl

/-- Seeding a healthy store that already holds a record is a no-op. -/
lemma seedStore_nonempty (st : Store) (hf : st.failing = false)
    (hp : st.products ≠ []) :
    seedStore st = .ok st := by
  rw [seedStore, countDocuments, if_neg (by rw [hf]; exact Bool.false_ne_true)]
  dsimp only
  rw [if_pos (List.length_pos.mpr hp)]

/-- The seeded store keeps the health flag of the original. -/
lemma seededStore_failing (st : Store) :
    (seededStore st).failing = st.failing := rfl

/-- The seeded store of an empty store holds exactly the baseline set. -/
lemma seededStore_products (st : Store) (hp : st.products = []) :
    (seededStore st).products = assignIds st.nextId sampleProducts := by
  rw [seededStore]
  dsimp only
  rw [hp, List.nil_append]

/-- The baseline set is not empty. -/
lemma seededStore_products_ne_nil (st : Store) (hp : st.products = []) :
    (seededStore st).products ≠ [] := by
  rw [seededStore_products st hp]
  intro he
  have hlen := congrArg List.length he
  rw [assignIds_length] at hlen
  simp [sampleProducts] at hlen

/-- C5: under non-concurrent execution against a healthy store, seeding an
    empty catalog inserts the fixed baseline set exactly once and a second
    call is a no-op, while seeding a store that already holds at least one
    product record changes nothing. -/
theorem seeding_idempotent (st : Store) (hf : st.failing = false) :
    (st.products = [] →
       ∃ st2, seed_products_if_empty (some st) = .ok (some st2) ∧
         st2.products = assignIds st.nextId sampleProducts ∧
         st2.orders = st.orders ∧
         seed_products_if_empty (some st2) = .ok (some st2)) ∧
    (st.products ≠ [] → seed_products_if_empty (some st) = .ok (some st)) := by
  constructor
  · intro hp
    refine ⟨seededStore st, ?_, seededStore_products st hp, rfl, ?_⟩
    · rw [seed_products_if_empty, seedStore_empty st hf hp]
    · rw [seed_products_if_empty,
          seedStore_nonempty _ (by rw [seededStore_failing, hf])
            (seededStore_products_ne_nil st hp)]
  · intro hp
    rw [seed_products_if_empty, seedStore_nonempty st hf hp]

/-- Witness for C5: seeding the concrete empty store inserts the catalog
    once, the second call is a no-op, and seeding the one-product store
    changes nothing. -/
theorem seeding_idempotent_witness :
    (∃ st2, seed_products_if_empty (some stEmptyOk) = .ok (some st2) ∧
       st2.products = assignIds 0 sampleProducts ∧
       st2.orders = ([] : List OrderDoc) ∧
       seed_products_if_empty (some st2) = .ok (some st2)) ∧
    seed_products_if_empty (some stW) = .ok (some stW) :=
  ⟨(seeding_idempotent stEmptyOk rfl).1 rfl,
   (seeding_idempotent stW rfl).2 (by decide)⟩

/-- C6 counterexample: with the query ".", the listing returns the product
    named "Tea" although "." occurs as a substring of none of its name,
    description or tags — the query string is applied as a regular
    expression, not as a literal substring. -/
theorem search_regex_counterexample :
    (list_products none (some ".") (some stTea)).1 = .ok [teaProduct] ∧
    specSearchMatches "." teaProduct = false :=
  ⟨rfl, by decide⟩

/-- A listing request against a healthy store first seeds, then filters. -/
lemma list_products_ok (st st2 : Store) (category q : Option String)
    (hseed : seedStore st = .ok st2) (hf2 : st2.failing = false) :
    list_products category q (some st) =
      (.ok (st2.products.filter (productMatches category q)), some st2) := by
  simp only [list_products, hseed, findDocs,
             if_neg (by rw [hf2]; exact Bool.false_ne_true : ¬st2.failing = true)]

/-- C6 as amended: for every query free of regular-expression
    metacharacters, the listing returns exactly the stored (post-seeding)
    products for which the query occurs as a case-insensitive substring of
    the name, the description, or at least one tag — and both readings agree
    that the query "strawberry" matches the name "Strawberry Bubble Tea".
    For queries containing metacharacters the two notions differ, because
    the code passes the query to the store as a case-insensitive regular
    expression. -/
theorem listing_search_ci_substring (st : Store) (q : String)
    (hf : st.failing = false)
    (hq : ∀ c ∈ q.data, regexMeta c = false)
    (hnames : ∀ p ∈ st.products, p.name.isSome = true) :
    (∃ st2, seedStore st = .ok st2 ∧
       list_products none (some q) (some st) =
         (.ok (st2.products.filter (specSearchMatches q)), some st2)) ∧
    regexSearch "strawberry".data "Strawberry Bubble Tea".data = true ∧
    substrCI "strawberry".data "Strawberry Bubble Tea".data = true := by
  refine ⟨?_, by decide, by decide⟩
  have hnames2 : ∀ st2, seedStore st = .ok st2 →
      ∀ p ∈ st2.products, p.name.isSome = true := by
    intro st2 hseed p hp2
    by_cases hp : st.products = []
    · rw [seedStore_empty st hf hp] at hseed
      cases hseed
      rw [seededStore_products st hp] at hp2
      have hmem := assignIds_mem st.nextId sampleProducts p hp2
      have hall : ∀ d ∈ sampleProducts, d.name.isSome = true := by decide
      exact hall p.toProductData hmem
    · rw [seedStore_nonempty st hf hp] at hseed
      cases hseed
      exact hnames p hp2
  have hfail2 : ∀ st2, seedStore st = .ok st2 → st2.failing = false := by
    intro st2 hseed
    by_cases hp : st.products = []
    · rw [seedStore_empty st hf hp] at hseed
      cases hseed
      rw [seededStore_failing, hf]
    · rw [seedStore_nonempty st hf hp] at hseed
      cases hseed
      exact hf
  have hseed : ∃ st2, seedStore st = .ok st2 := by
    by_cases hp : st.products = []
    · exact ⟨seededStore st, seedStore_empty st hf hp⟩
    · exact ⟨st, seedStore_nonempty st hf hp⟩
  obtain ⟨st2, hseed⟩ := hseed
  refine ⟨st2, hseed, ?_⟩
  rw [list_products_ok st st2 none (some q) hseed (hfail2 st2 hseed)]
  have hfilter : st2.products.filter (productMatches none (some q)) =
      st2.products.filter (specSearchMatches q) :=
    List.filter_congr fun p hp2 =>
      productMatches_eq_spec q hq p (hnames2 st2 hseed p hp2)
  rw [hfilter]

/-- Witness for the amended C6: searching "strawberry" on the freshly
    seeded catalog returns exactly the spec-side substring matches. -/
theorem listing_search_ci_substring_witness :
    (∃ st2, seedStore stEmptyOk = .ok st2 ∧
       list_products none (some "strawberry") (some stEmptyOk) =
         (.ok (st2.products.filter (specSearchMatches "strawberry")), some st2)) ∧
    regexSearch "strawberry".data "Strawberry Bubble Tea".data = true ∧
    substrCI "strawberry".data "Strawberry Bubble Tea".data = true :=
  listing_search_ci_substring stEmptyOk "strawberry" rfl (by decide)
    (by intro p hp; cases hp)

/-- C7 counterexample: when the store fails during seeding, the listing
    request does not complete with a degraded catalog — the storage error
    escapes list_products uncaught, i.e. the request crashes with a server
    error instead of being swallowed. -/
theorem seeding_error_swallowed_counterexample :
    (list_products none none (some stFailing)).1 = .error "storage failure" :=
  rfl

/-- C7 as amended: a storage error raised inside seed_products_if_empty
    propagates out of list_products (seed_products_if_empty has no exception
    handling and list_products calls it unguarded), so the listing request
    fails with that error instead of degrading to an empty catalog. -/
theorem seeding_error_propagates (st : Store) (category q : Option String)
    (hf : st.failing = true) :
    list_products category q (some st) = (.error "storage failure", some st) := by
  have hseed : seedStore st = .error "storage failure" := by
    rw [seedStore, countDocuments, if_pos hf]
  simp only [list_products, hseed]

/-- Witness for the amended C7 at the concrete failing store. -/
theorem seeding_error_propagates_witness :
    list_products none none (some stFailing) =
      (.error "storage failure", some stFailing) :=
  seeding_error_propagates stFailing none none rfl

/-- C8: a line with quantity 0 or negative is rejected at the request
    boundary with a 4xx validation error before the handler body runs and
    nothing is persisted, while a request all of whose quantities equal 1
    passes the boundary and reaches create_order unchanged. -/
theorem quantity_boundary (dbOpt : Option Store) (req : CreateOrderRequest) :
    ((∃ it ∈ req.items, it.quantity ≤ 0) →
       postOrders dbOpt req =
         { resp := .httpError 422
             "request validation failed: quantity must be at least 1",
           db := dbOpt, lookups := 0, writes := 0 }) ∧
    ((∀ it ∈ req.items, it.quantity = 1) →
       postOrders dbOpt req = createOrder dbOpt req) := by
  constructor
  · rintro ⟨it, hit, hq⟩
    rw [postOrders, if_neg]
    intro hall
    have hvq := List.all_eq_true.mp hall it hit
    rw [validQuantity] at hvq
    have : (1 : Int) ≤ it.quantity := by
      exact_mod_cast of_decide_eq_true hvq
    omega
  · intro hall
    rw [postOrders, if_pos]
    apply List.all_eq_true.mpr
    intro it hit
    rw [validQuantity, hall it hit]
    decide

/-- Witness for C8: quantity 0 is rejected with the 422 validation error
    while quantity 1 reaches create_order. -/
theorem quantity_boundary_witness :
    postOrders (some stW) reqQ0 =
      { resp := .httpError 422
          "request validation failed: quantity must be at least 1",
        db := some stW, lookups := 0, writes := 0 } ∧
    postOrders (some stW) reqQ1 = createOrder (some stW) reqQ1 :=
  ⟨(quantity_boundary (some stW) reqQ0).1
     ⟨{ product_id := pidA, quantity := 0 }, by decide, by decide⟩,
   (quantity_boundary (some stW) reqQ1).2 (by decide)⟩

/-- C1: for a non-empty request in which every line carries a well-formed
    reference resolving to a stored product with a name and a price,
    create_order succeeds against a healthy store: it returns the freshly
    minted order identifier, persists exactly one order document whose
    subtotal is the sum of price-at-lookup-time times quantity rounded to
    two fraction digits, and whose items are frozen snapshots of the current
    name and price with the requested quantity. -/
theorem createOrder_success_subtotal (st : Store) (req : CreateOrderRequest)
    (hf : st.failing = false) (hne : req.items ≠ [])
    (h : ∀ l ∈ req.items, Resolves st l ∧
         ∃ p, lookupProduct st l.product_id = some p ∧ p.price.isSome = true) :
    ∃ st2,
      createOrder (some st) req =
        { resp := .ok (genId st.nextId), db := some st2,
          lookups := req.items.length, writes := 1 } ∧
      st2.orders = st.orders ++ [orderDocOf st req] ∧
      (orderDocOf st req).subtotal =
        round2 ((req.items.map (lineAmount st)).sum) ∧
      (orderDocOf st req).items = req.items.map (snapItem st) ∧
      ∀ l ∈ req.items, ∀ p pr, lookupProduct st l.product_id = some p →
        p.price = some pr →
        snapItem st l = { product_id := p.pid, name := p.name.getD "",
                          price := pr, quantity := l.quantity } ∧
        lineAmount st l = pr * (l.quantity : ℚ) := by
  refine ⟨_, createOrder_resolved st req hf hne fun l hl => (h l hl).1,
         rfl, rfl, rfl, ?_⟩
  intro l hl p pr hp hpr
  constructor
  · rw [snapItem, hp]
    simp [hpr]
  · rw [lineAmount, hp]
    simp [hpr]

/-- Witness for C1: the spec scenario — one line of quantity 2 on a product
    priced 18000 persists one order with the snapshot line. -/
theorem createOrder_success_subtotal_witness :
    ∃ st2,
      createOrder (some stW) { items := [{ product_id := pidA, quantity := 2 }] } =
        { resp := .ok (genId 0), db := some st2, lookups := 1, writes := 1 } ∧
      st2.orders =
        [] ++ [orderDocOf stW { items := [{ product_id := pidA, quantity := 2 }] }] ∧
      (orderDocOf stW { items := [{ product_id := pidA, quantity := 2 }] }).subtotal =
        round2 (((([{ product_id := pidA, quantity := 2 }] :
            List CreateOrderItem)).map (lineAmount stW)).sum) ∧
      (orderDocOf stW { items := [{ product_id := pidA, quantity := 2 }] }).items =
        ([{ product_id := pidA, quantity := 2 }] :
            List CreateOrderItem).map (snapItem stW) ∧
      ∀ l ∈ ([{ product_id := pidA, quantity := 2 }] : List CreateOrderItem),
        ∀ p pr, lookupProduct stW l.product_id = some p →
        p.price = some pr →
        snapItem stW l = { product_id := p.pid, name := p.name.getD "",
                           price := pr, quantity := l.quantity } ∧
        lineAmount stW l = pr * (l.quantity : ℚ) := by
  exact createOrder_success_subtotal stW
    { items := [{ product_id := pidA, quantity := 2 }] } rfl (by decide)
    (by
      intro l hl
      simp only [List.mem_singleton] at hl
      subst hl
      exact ⟨⟨by decide, by decide, prodW, by decide, by decide, by decide⟩,
             prodW, by decide, by decide⟩)

/-- C9: when every line of a non-empty request resolves to a stored product
    document that carries a name but no price field, order creation still
    succeeds: each snapshot records price 0 and the order persists with
    subtotal 0. -/
theorem missing_price_defaults_zero (st : Store) (req : CreateOrderRequest)
    (hf : st.failing = false) (hne : req.items ≠ [])
    (h : ∀ l ∈ req.items, validObjectIdStr l.product_id = true ∧
         1 ≤ l.quantity ∧
         ∃ p, lookupProduct st l.product_id = some p ∧
              p.name.isSome = true ∧ p.price = none) :
    ∃ st2,
      createOrder (some st) req =
        { resp := .ok (genId st.nextId), db := some st2,
          lookups := req.items.length, writes := 1 } ∧
      st2.orders = st.orders ++ [orderDocOf st req] ∧
      (orderDocOf st req).subtotal = 0 ∧
      ∀ it ∈ (orderDocOf st req).items, it.price = 0 := by
  have hres : ∀ l ∈ req.items, Resolves st l := by
    intro l hl
    obtain ⟨hv, hq, p, hp, hn, hpr⟩ := h l hl
    exact ⟨hv, hq, p, hp, hn, by rw [hpr]; exact le_refl 0⟩
  have hzero : ∀ l ∈ req.items, lineAmount st l = 0 := by
    intro l hl
    obtain ⟨_, _, p, hp, _, hpr⟩ := h l hl
    rw [lineAmount, hp]
    simp [hpr]
  have hsum : (req.items.map (lineAmount st)).sum = 0 := by
    apply List.sum_eq_zero
    intro x hx
    obtain ⟨l, hl, rfl⟩ := List.mem_map.mp hx
    exact hzero l hl
  refine ⟨_, createOrder_resolved st req hf hne hres, rfl, ?_, ?_⟩
  · show round2 ((req.items.map (lineAmount st)).sum) = 0
    rw [hsum, round2_zero]
  · intro it hit
    obtain ⟨l, hl, rfl⟩ := List.mem_map.mp hit
    obtain ⟨_, _, p, hp, _, hpr⟩ := h l hl
    rw [snapItem, hp]
    simp [hpr]

/-- Witness for C9: one line referencing the priceless product persists an
    order with subtotal 0. -/
theorem missing_price_defaults_zero_witness :
    ∃ st2,
      createOrder (some stNoPrice)
          { items := [{ product_id := pidA, quantity := 1 }] } =
        { resp := .ok (genId 0), db := some st2, lookups := 1, writes := 1 } ∧
      st2.orders = [] ++
        [orderDocOf stNoPrice { items := [{ product_id := pidA, quantity := 1 }] }] ∧
      (orderDocOf stNoPrice
          { items := [{ product_id := pidA, quantity := 1 }] }).subtotal = 0 ∧
      ∀ it ∈ (orderDocOf stNoPrice
          { items := [{ product_id := pidA, quantity := 1 }] }).items,
        it.price = 0 := by
  exact missing_price_defaults_zero stNoPrice
    { items := [{ product_id := pidA, quantity := 1 }] } rfl (by decide)
    (by
      intro l hl
      simp only [List.mem_singleton] at hl
      subst hl
      exact ⟨by decide, by decide, prodNoPrice, by decide, by decide, by decide⟩)
